import Mathlib

/-!
Verification of the response classification and typed decoding pipeline of
the web3-rpc crate, as implemented in src/client.rs and src/web3.rs, against
its specification.  The embedding models JSON values as an inductive type,
the serde_json text parser on the integer fragment used by the crate, the
serde-derived decoders of the envelope types, and the error reports built by
error_stack as structured values.
-/

/-- JSON values in the fragment exchanged by the crate.  Numbers are modelled
as integers: no request or response shape in scope carries a fractional or
exponent-form number. -/
inductive Json where
  | null : Json
  | bool (b : Bool) : Json
  | num (n : Int) : Json
  | str (s : String) : Json
  | arr (elems : List Json) : Json
  | obj (members : List (String × Json)) : Json
deriving Repr

/-- The opening curly brace character. -/
def lcurly : Char := Char.ofNat 123

/-- The closing curly brace character. -/
def rcurly : Char := Char.ofNat 125

/-- Boolean test that the first list is a prefix of the second. -/
def prefAt : List Char → List Char → Bool
  | [], _ => true
  | _ :: _, [] => false
  | a :: as, b :: bs => a == b && prefAt as bs

/-- Boolean substring search over character lists. -/
def subAt (needle : List Char) : List Char → Bool
  | [] => prefAt needle []
  | c :: rest => prefAt needle (c :: rest) || subAt needle rest

/-- Model of Rust `text.find(needle) != None`: substring containment. -/
def strContains (hay needle : String) : Bool := subAt needle.data hay.data

/-- Skip JSON insignificant whitespace, as serde_json does between tokens. -/
def skipWs : List Char → List Char
  | [] => []
  | c :: cs => if c = ' ' || c = '\n' || c = '\t' || c = '\r' then skipWs cs else c :: cs

/-- Decoding of a single-character JSON string escape (the numeric \uXXXX
form is not modelled; no value in scope uses it). -/
def escChar : Char → Option Char
  | '"' => some '"'
  | '\\' => some '\\'
  | '/' => some '/'
  | 'b' => some (Char.ofNat 8)
  | 'f' => some (Char.ofNat 12)
  | 'n' => some '\n'
  | 'r' => some '\r'
  | 't' => some '\t'
  | _ => none

/-- Parse the body of a JSON string literal after its opening quote,
returning the decoded characters and the remaining input. -/
def parseStringBody : List Char → Option (List Char × List Char)
  | [] => none
  | c :: cs =>
    if c = '"' then some ([], cs)
    else if c = '\\' then
      match cs with
      | [] => none
      | e :: cs' =>
        match escChar e with
        | none => none
        | some d =>
          match parseStringBody cs' with
          | none => none
          | some (s, rest) => some (d :: s, rest)
    else if c.toNat < 32 then none
    else
      match parseStringBody cs with
      | none => none
      | some (s, rest) => some (c :: s, rest)

/-- Consume a run of decimal digits, folding them onto an accumulator. -/
def parseDigits (acc : Nat) : List Char → Nat × List Char
  | [] => (acc, [])
  | c :: cs => if c.isDigit then parseDigits (acc * 10 + (c.toNat - 48)) cs else (acc, c :: cs)

/-- Parse a JSON integer literal, optionally negative. -/
def parseNumber : List Char → Option (Json × List Char)
  | [] => none
  | c :: cs =>
    if c = '-' then
      match cs with
      | [] => none
      | d :: _ =>
        if d.isDigit then
          let p := parseDigits 0 cs
          some (Json.num (-(p.1 : Int)), p.2)
        else none
    else if c.isDigit then
      let p := parseDigits 0 (c :: cs)
      some (Json.num (p.1 : Int), p.2)
    else none

mutual

/-- Fuel-indexed parser for a JSON value, modelling serde_json's grammar on
the fragment in scope. -/
def parseValue : Nat → List Char → Option (Json × List Char)
  | 0, _ => none
  | fuel + 1, cs =>
    match skipWs cs with
    | 'n' :: 'u' :: 'l' :: 'l' :: rest => some (Json.null, rest)
    | 't' :: 'r' :: 'u' :: 'e' :: rest => some (Json.bool true, rest)
    | 'f' :: 'a' :: 'l' :: 's' :: 'e' :: rest => some (Json.bool false, rest)
    | c :: rest =>
      if c = '"' then
        match parseStringBody rest with
        | none => none
        | some (s, r) => some (Json.str (String.mk s), r)
      else if c = '[' then
        match skipWs rest with
        | ']' :: r => some (Json.arr [], r)
        | cs' =>
          match parseElems fuel cs' with
          | none => none
          | some (xs, r) => some (Json.arr xs, r)
      else if c = lcurly then
        match skipWs rest with
        | d :: r =>
          if d = rcurly then some (Json.obj [], r)
          else
            match parseMembers fuel (d :: r) with
            | none => none
            | some (ms, r') => some (Json.obj ms, r')
        | [] => none
      else parseNumber (c :: rest)
    | [] => none

/-- Fuel-indexed parser for the elements of a non-empty JSON array. -/
def parseElems : Nat → List Char → Option (List Json × List Char)
  | 0, _ => none
  | fuel + 1, cs =>
    match parseValue fuel cs with
    | none => none
    | some (v, rest) =>
      match skipWs rest with
      | ',' :: r =>
        match parseElems fuel r with
        | none => none
        | some (xs, r') => some (v :: xs, r')
      | ']' :: r => some ([v], r)
      | _ => none

/-- Fuel-indexed parser for the members of a non-empty JSON object. -/
def parseMembers : Nat → List Char → Option (List (String × Json) × List Char)
  | 0, _ => none
  | fuel + 1, cs =>
    match skipWs cs with
    | c :: rest =>
      if c = '"' then
        match parseStringBody rest with
        | none => none
        | some (k, rest1) =>
          match skipWs rest1 with
          | ':' :: rest2 =>
            match parseValue fuel rest2 with
            | none => none
            | some (v, rest3) =>
              match skipWs rest3 with
              | d :: r =>
                if d = ',' then
                  match parseMembers fuel r with
                  | none => none
                  | some (ms, r') => some ((String.mk k, v) :: ms, r')
                else if d = rcurly then some ([(String.mk k, v)], r)
                else none
              | [] => none
          | _ => none
      else none
    | [] => none

end

/-- Model of `serde_json::from_str` at the document level: parse one JSON
value and require only whitespace to follow it. -/
def Json.parse (s : String) : Option Json :=
  match parseValue (s.length + 1) s.data with
  | none => none
  | some (j, rest) => if skipWs rest = [] then some j else none

/-- Look up the first member of a JSON object with the given key, as the
serde-derived deserializers do for a declared field. -/
def getKey (k : String) : List (String × Json) → Option Json
  | [] => none
  | (k', v) :: ms => if k' = k then some v else getKey k ms

/-- Number of members of a JSON object carrying the given key; the derived
deserializers reject a declared field that occurs more than once. -/
def countKey (k : String) : List (String × Json) → Nat
  | [] => 0
  | (k', _) :: ms => (if k' = k then 1 else 0) + countKey k ms

/-- Look up a member of a JSON document by key when it is an object. -/
def objGet (k : String) : Json → Option Json
  | Json.obj ms => getKey k ms
  | _ => none

/-- Path segment tracked by serde_path_to_error: a map key or a sequence
index. -/
inductive Seg where
  | field (name : String) : Seg
  | index (i : Nat) : Seg
deriving Repr, DecidableEq

/-- Decode error of the path-tracking deserializer: the JSON path at which
decoding failed together with the underlying message. -/
structure DecErr where
  path : List Seg
  msg : String
deriving Repr, DecidableEq

/-- Render a tracked path the way serde_path_to_error displays it: a dotted
path, or "." when the failure is at the top level. -/
def renderSeg : Seg → String
  | Seg.field name => name
  | Seg.index i => Nat.repr i

/-- Render a full tracked path; empty paths display as ".". -/
def renderPath : List Seg → String
  | [] => "."
  | s :: rest => (rest.foldl (fun acc sg => acc ++ "." ++ renderSeg sg) (renderSeg s))

/-- Decoder for a JSON string at a given path. -/
def decodeString (path : List Seg) : Json → Except DecErr String
  | Json.str s => Except.ok s
  | _ => Except.error ⟨path, "invalid type"⟩

/-- Modelled from the spec: the decoded success envelope RpcEnvelope, named
JsonRpcResult in the crate; its definition lives in src/model.rs which is not
among the sources, so the field set follows spec sections 3 and 6: the wire
keys id, jsonrpc and result. -/
structure JsonRpcResult (T : Type) where
  id : String
  jsonrpc : String
  result : T
deriving Repr, DecidableEq

/-- Serde-derived deserializer for `JsonRpcResult T`, with serde_path_to_error
path tracking: requires a JSON object, rejects duplicate declared fields,
requires the three declared fields, ignores unknown members, and decodes the
result value with the caller-supplied decoder at path result. -/
def decodeJsonRpcResult {T : Type} (decT : List Seg → Json → Except DecErr T) :
    Json → Except DecErr (JsonRpcResult T)
  | Json.obj ms =>
    if 2 ≤ countKey "id" ms ∨ 2 ≤ countKey "jsonrpc" ms ∨ 2 ≤ countKey "result" ms then
      Except.error ⟨[], "duplicate field"⟩
    else
      match getKey "id" ms with
      | none => Except.error ⟨[], "missing field id"⟩
      | some idJ =>
        match decodeString [Seg.field "id"] idJ with
        | Except.error e => Except.error e
        | Except.ok idv =>
          match getKey "jsonrpc" ms with
          | none => Except.error ⟨[], "missing field jsonrpc"⟩
          | some vJ =>
            match decodeString [Seg.field "jsonrpc"] vJ with
            | Except.error e => Except.error e
            | Except.ok ver =>
              match getKey "result" ms with
              | none => Except.error ⟨[], "missing field result"⟩
              | some rJ =>
                match decT [Seg.field "result"] rJ with
                | Except.error e => Except.error e
                | Except.ok r => Except.ok ⟨idv, ver, r⟩
  | _ => Except.error ⟨[], "invalid type"⟩

/-- Modelled from the spec: the JSON-RPC fault object RpcFault with shape
code, message and an optional data mapping (spec section 3); defined in
src/model.rs, which is not among the sources. -/
structure RpcFault where
  code : Int
  message : String
  data : Option (List (String × String))
deriving Repr, DecidableEq

/-- Modelled from the spec: the fault-carrying envelope, named JsonRpcError
in the crate (src/model.rs, not among the sources); an object containing an
error field holding the fault (spec sections 3 and 6). -/
structure JsonRpcError where
  error : RpcFault
deriving Repr, DecidableEq

/-- Decode of a mapping from string to string, the data payload type the
handler instantiates the fault envelope with. -/
def decodeStrPairs : List (String × Json) → Option (List (String × String))
  | [] => some []
  | (k, Json.str v) :: ms =>
    match decodeStrPairs ms with
    | none => none
    | some r => some ((k, v) :: r)
  | _ => none

/-- Decode a JSON value as a string-to-string mapping. -/
def decodeStrMap : Json → Option (List (String × String))
  | Json.obj ms => decodeStrPairs ms
  | _ => none

/-- Serde-derived deserializer for the fault object: integer code, string
message, optional data mapping; unknown members ignored, duplicate declared
fields rejected. -/
def decodeFault : Json → Option RpcFault
  | Json.obj ms =>
    if 2 ≤ countKey "code" ms ∨ 2 ≤ countKey "message" ms ∨ 2 ≤ countKey "data" ms then none
    else
      match getKey "code" ms with
      | some (Json.num c) =>
        match getKey "message" ms with
        | some (Json.str m) =>
          match getKey "data" ms with
          | none => some ⟨c, m, none⟩
          | some dj =>
            match decodeStrMap dj with
            | none => none
            | some d => some ⟨c, m, some d⟩
        | _ => none
      | _ => none
  | _ => none

/-- Serde-derived deserializer for the fault envelope. -/
def decodeJsonRpcErrorEnv : Json → Option JsonRpcError
  | Json.obj ms =>
    if 2 ≤ countKey "error" ms then none
    else
      match getKey "error" ms with
      | none => none
      | some ej =>
        match decodeFault ej with
        | none => none
        | some f => some ⟨f⟩
  | _ => none

/-- Model of the handler's fault parse, src/client.rs lines 74 to 77:
`serde_json::from_str::<JsonRpcError<HashMap<String, String>>>(text)`. -/
def parseFaultEnv (s : String) : Option JsonRpcError :=
  match Json.parse s with
  | none => none
  | some j => decodeJsonRpcErrorEnv j

/-- The error enum of src/client.rs lines 17 to 24. -/
inductive Client.Error where
  | JsonRpcError (msg : String) : Client.Error
  | IoError : Client.Error
  | HttpError (status : Nat) : Client.Error
  | UnexpectedResponseFormat : Client.Error
  | FailedToDeserialize : Client.Error
deriving Repr, DecidableEq

/-- Model of an error_stack report as surfaced to the caller: the current
context, the attached printable messages, and, when the source frame is a
serde_path_to_error failure, the tracked JSON path. -/
structure Report where
  context : Client.Error
  messages : List String
  path : Option (List Seg)
deriving Repr, DecidableEq

/-- Canonical reason phrases of the http crate for the status codes the
model needs; unlisted codes have none. -/
def canonicalReason : Nat → Option String
  | 200 => some "OK"
  | 201 => some "Created"
  | 301 => some "Moved Permanently"
  | 302 => some "Found"
  | 304 => some "Not Modified"
  | 400 => some "Bad Request"
  | 401 => some "Unauthorized"
  | 403 => some "Forbidden"
  | 404 => some "Not Found"
  | 405 => some "Method Not Allowed"
  | 429 => some "Too Many Requests"
  | 500 => some "Internal Server Error"
  | 502 => some "Bad Gateway"
  | 503 => some "Service Unavailable"
  | 504 => some "Gateway Timeout"
  | _ => none

/-- Display form of an HTTP status code: the number followed by its
canonical reason, as the http crate renders it. -/
def statusDisplay (status : Nat) : String :=
  Nat.repr status ++ " " ++ (canonicalReason status).getD "<unknown status code>"

/-- Model of `Response::error_for_status`: client and server error codes
produce an error whose display names the status; other codes pass. -/
def reqwestStatusError (status : Nat) : Option String :=
  if 400 ≤ status ∧ status ≤ 499 then
    some ("HTTP status client error (" ++ statusDisplay status ++ ")")
  else if 500 ≤ status ∧ status ≤ 599 then
    some ("HTTP status server error (" ++ statusDisplay status ++ ")")
  else none

/-- Model of `Client::handler`, src/client.rs lines 63 to 90, applied to the
response status and the response body text.  On status 200 the body is
sniffed for the substring error: a hit routes it through the fault-envelope
parse, whose success raises JsonRpcError with the fault message and whose
failure raises UnexpectedResponseFormat; otherwise the raw body is returned.
On any other status, client and server error codes raise HttpError with the
status error display attached, and remaining codes raise
UnexpectedResponseFormat with the status attached; the body is not touched. -/
def Client.handler (status : Nat) (text : String) : Except Report String :=
  if status = 200 then
    if strContains text "error" then
      match parseFaultEnv text with
      | some e => Except.error ⟨Client.Error.JsonRpcError e.error.message, [], none⟩
      | none => Except.error ⟨Client.Error.UnexpectedResponseFormat, ["unexpected err format"], none⟩
    else Except.ok text
  else
    match reqwestStatusError status with
    | some msg => Except.error ⟨Client.Error.HttpError status, [msg], none⟩
    | none =>
      Except.error ⟨Client.Error.UnexpectedResponseFormat, ["status " ++ statusDisplay status], none⟩

/-- Model of `Web3::parse_json`, src/web3.rs lines 25 to 32: deserialize the
body with a path-tracking deserializer; any failure becomes
FailedToDeserialize carrying the tracked path, a syntax failure carrying the
top-level path. -/
def Web3.parse_json {T : Type} (dec : Json → Except DecErr T) (s : String) : Except Report T :=
  match Json.parse s with
  | none => Except.error ⟨Client.Error.FailedToDeserialize, ["syntax error"], some []⟩
  | some j =>
    match dec j with
    | Except.ok v => Except.ok v
    | Except.error e => Except.error ⟨Client.Error.FailedToDeserialize, [e.msg], some e.path⟩

/-- Composition every wrapper method performs on a response: classify it with
the handler, then decode the returned success body with parse_json. -/
def rpcCall {T : Type} (dec : Json → Except DecErr T) (status : Nat) (body : String) :
    Except Report T :=
  match Client.handler status body with
  | Except.ok text => Web3.parse_json dec text
  | Except.error r => Except.error r

/-- Modelled from the spec: the block-tag enumeration of src/model.rs (not
among the sources), with at least the variant Latest, convertible to its
literal lowercase string form (spec section 6). -/
inductive Tag where
  | latest : Tag
deriving Repr, DecidableEq

/-- Conversion of a block tag to its JSON-RPC string form, the model of
`String::from` on Tag. -/
def tagString : Tag → String
  | Tag.latest => "latest"

/-- Request payload built by `Web3::eth_get_balance`, src/web3.rs lines 145
to 154: the block tag defaults to latest when unset. -/
def Web3.eth_get_balance_payload (address : String) (tag : Option Tag) : Json :=
  let t := match tag with
    | some tg => tagString tg
    | none => tagString Tag.latest
  Json.obj [("jsonrpc", Json.str "2.0"), ("method", Json.str "eth_getBalance"),
    ("params", Json.arr [Json.str address, Json.str t]), ("id", Json.str "311")]

/-- Request payload built by `Web3::eth_get_storage_at`, src/web3.rs lines
161 to 171. -/
def Web3.eth_get_storage_at_payload (data quantity : String) (tag : Option Tag) : Json :=
  let t := match tag with
    | some tg => tagString tg
    | none => tagString Tag.latest
  Json.obj [("jsonrpc", Json.str "2.0"), ("method", Json.str "eth_getStorageAt"),
    ("params", Json.arr [Json.str data, Json.str quantity, Json.str t]), ("id", Json.str "312")]

/-- Request payload built by `Web3::eth_get_transaction_count`, src/web3.rs
lines 178 to 187. -/
def Web3.eth_get_transaction_count_payload (address : String) (tag : Option Tag) : Json :=
  let t := match tag with
    | some tg => tagString tg
    | none => tagString Tag.latest
  Json.obj [("jsonrpc", Json.str "2.0"), ("method", Json.str "eth_getTransactionCount"),
    ("params", Json.arr [Json.str address, Json.str t]), ("id", Json.str "313")]

/-- Request payload built by `Web3::eth_get_code`, src/web3.rs lines 238 to
247. -/
def Web3.eth_get_code_payload (address : String) (tag : Option Tag) : Json :=
  let t := match tag with
    | some tg => tagString tg
    | none => tagString Tag.latest
  Json.obj [("jsonrpc", Json.str "2.0"), ("method", Json.str "eth_getCode"),
    ("params", Json.arr [Json.str address, Json.str t]), ("id", Json.str "318")]

/-- Request payload built by `Web3::web3_client_version`, src/web3.rs lines
35 to 37: its method field is the literal net_version with id 101. -/
def Web3.web3_client_version_payload : Json :=
  Json.obj [("jsonrpc", Json.str "2.0"), ("method", Json.str "net_version"),
    ("params", Json.arr []), ("id", Json.str "101")]

/-- Request payload built by `Web3::net_version`, src/web3.rs lines 54 to
56. -/
def Web3.net_version_payload : Json :=
  Json.obj [("jsonrpc", Json.str "2.0"), ("method", Json.str "net_version"),
    ("params", Json.arr []), ("id", Json.str "401")]

/-- Boolean check that one of the messages attached to a report contains the
given text. -/
def Report.mentions (r : Report) (needle : String) : Bool :=
  r.messages.any (fun m => strContains m needle)

theorem prefAt_self_append (n s : List Char) : prefAt n (n ++ s) = true := by
  induction n with
  | nil => rfl
  | cons a as ih => simp [prefAt, ih]

theorem subAt_self_append (n suf : List Char) : subAt n (n ++ suf) = true := by
  cases hns : n ++ suf with
  | nil =>
    rcases List.append_eq_nil.mp hns with ⟨hn, hs⟩
    subst hn; subst hs; rfl
  | cons c rest =>
    have hp := prefAt_self_append n suf
    rw [hns] at hp
    simp [subAt, hp]

theorem subAt_middle (pre n suf : List Char) : subAt n (pre ++ n ++ suf) = true := by
  induction pre with
  | nil => simpa using subAt_self_append n suf
  | cons a as ih =>
    simp only [List.cons_append, subAt, Bool.or_eq_true]
    right
    simpa [List.append_assoc] using ih

theorem strContains_of_data (hay b : String) (pre suf : List Char)
    (h : hay.data = pre ++ b.data ++ suf) : strContains hay b = true := by
  unfold strContains
  rw [h]
  exact subAt_middle pre b.data suf

/-- C1: an HTTP 200 response whose body is a well-formed success envelope and
whose text does not contain the substring error is classified Success with
the body unchanged, and parse_json decodes that body into the typed envelope
with the embedded result value unchanged. -/
theorem claim_c1_success_body_decodes {T : Type}
    (decT : List Seg → Json → Except DecErr T)
    (body idv ver : String) (ms : List (String × Json)) (rj : Json) (v : T)
    (hparse : Json.parse body = some (Json.obj ms))
    (hid1 : countKey "id" ms = 1) (hjr1 : countKey "jsonrpc" ms = 1)
    (hres1 : countKey "result" ms = 1)
    (hid : getKey "id" ms = some (Json.str idv))
    (hjr : getKey "jsonrpc" ms = some (Json.str ver))
    (hres : getKey "result" ms = some rj)
    (hdec : decT [Seg.field "result"] rj = Except.ok v)
    (hnoerr : strContains body "error" = false) :
    Client.handler 200 body = Except.ok body ∧
      Web3.parse_json (decodeJsonRpcResult decT) body = Except.ok ⟨idv, ver, v⟩ := by
  constructor
  · simp [Client.handler, hnoerr]
  · simp [Web3.parse_json, hparse, decodeJsonRpcResult, hid1, hjr1, hres1, hid, hjr, hres,
      hdec, decodeString]

/-- Witness for C1 at the end-to-end scenario A response body. -/
theorem claim_c1_success_body_decodes_witness :
    Client.handler 200 "\x7b\"jsonrpc\":\"2.0\",\"id\":\"401\",\"result\":\"3\"\x7d" =
        Except.ok "\x7b\"jsonrpc\":\"2.0\",\"id\":\"401\",\"result\":\"3\"\x7d" ∧
      Web3.parse_json (decodeJsonRpcResult decodeString)
          "\x7b\"jsonrpc\":\"2.0\",\"id\":\"401\",\"result\":\"3\"\x7d" =
        Except.ok ⟨"401", "2.0", "3"⟩ :=
  claim_c1_success_body_decodes decodeString
    "\x7b\"jsonrpc\":\"2.0\",\"id\":\"401\",\"result\":\"3\"\x7d" "401" "2.0"
    [("jsonrpc", Json.str "2.0"), ("id", Json.str "401"), ("result", Json.str "3")]
    (Json.str "3") "3" rfl rfl rfl rfl rfl rfl rfl rfl rfl

/-- C2: an HTTP 200 body that contains a valid JSON-RPC error object (its
text therefore contains the substring error) is classified as an application
error whose surfaced message equals the embedded fault message exactly. -/
theorem claim_c2_fault_message_surfaced
    (body : String) (env : JsonRpcError)
    (hsub : strContains body "error" = true)
    (hparse : parseFaultEnv body = some env) :
    Client.handler 200 body =
      Except.error ⟨Client.Error.JsonRpcError env.error.message, [], none⟩ := by
  simp [Client.handler, hsub, hparse]

/-- Witness for C2 at the end-to-end scenario C response body: the surfaced
message is exactly the embedded one. -/
theorem claim_c2_fault_message_surfaced_witness :
    Client.handler 200
        "\x7b\"jsonrpc\":\"2.0\",\"id\":\"311\",\"error\":\x7b\"code\":-32602,\"message\":\"invalid argument 0\"\x7d\x7d" =
      Except.error ⟨Client.Error.JsonRpcError "invalid argument 0", [], none⟩ :=
  claim_c2_fault_message_surfaced
    "\x7b\"jsonrpc\":\"2.0\",\"id\":\"311\",\"error\":\x7b\"code\":-32602,\"message\":\"invalid argument 0\"\x7d\x7d"
    ⟨⟨-32602, "invalid argument 0", none⟩⟩ rfl rfl

/-- C3: a response with any non-success status, that is any status other
than 200 (the only status the handler's success arm accepts), resolves to an
error that identifies the status: the report is independent of the body (the
body is never read or parsed), its message contains the numeric code for
every such status, and the four named statuses carry their fixed labels. -/
theorem claim_c3_http_status_errors
    (status : Nat) (hns : status ≠ 200) (body other : String) :
    Client.handler status body = Client.handler status other ∧
      ∃ r, Client.handler status body = Except.error r ∧
        Report.mentions r (Nat.repr status) = true ∧
        (status = 500 → Report.mentions r "Internal Server Error" = true) ∧
        (status = 503 → Report.mentions r "Service Unavailable" = true) ∧
        (status = 401 → Report.mentions r "Unauthorized" = true) ∧
        (status = 400 → Report.mentions r "Bad Request" = true) := by
  have h200 : ¬ status = 200 := hns
  by_cases hc : 400 ≤ status ∧ status ≤ 499
  · refine ⟨by simp [Client.handler, h200],
      ⟨Client.Error.HttpError status,
        ["HTTP status client error (" ++ statusDisplay status ++ ")"], none⟩,
      by simp [Client.handler, h200, reqwestStatusError, hc], ?_, ?_, ?_, ?_, ?_⟩
    · simp only [Report.mentions, List.any_cons, List.any_nil, Bool.or_false]
      refine strContains_of_data _ _ (String.data "HTTP status client error (")
        (String.data (" " ++ ((canonicalReason status).getD "<unknown status code>") ++ ")")) ?_
      simp [statusDisplay, String.data_append, List.append_assoc]
    · intro h; subst h; exact absurd hc (by decide)
    · intro h; subst h; exact absurd hc (by decide)
    · intro h; subst h; decide
    · intro h; subst h; decide
  · by_cases hs : 500 ≤ status ∧ status ≤ 599
    · refine ⟨by simp [Client.handler, h200],
        ⟨Client.Error.HttpError status,
          ["HTTP status server error (" ++ statusDisplay status ++ ")"], none⟩,
        by simp [Client.handler, h200, reqwestStatusError, hc, hs], ?_, ?_, ?_, ?_, ?_⟩
      · simp only [Report.mentions, List.any_cons, List.any_nil, Bool.or_false]
        refine strContains_of_data _ _ (String.data "HTTP status server error (")
          (String.data (" " ++ ((canonicalReason status).getD "<unknown status code>") ++ ")")) ?_
        simp [statusDisplay, String.data_append, List.append_assoc]
      · intro h; subst h; decide
      · intro h; subst h; decide
      · intro h; subst h; exact absurd hs (by decide)
      · intro h; subst h; exact absurd hs (by decide)
    · refine ⟨by simp [Client.handler, h200],
        ⟨Client.Error.UnexpectedResponseFormat, ["status " ++ statusDisplay status], none⟩,
        by simp [Client.handler, h200, reqwestStatusError, hc, hs], ?_, ?_, ?_, ?_, ?_⟩
      · simp only [Report.mentions, List.any_cons, List.any_nil, Bool.or_false]
        refine strContains_of_data _ _ (String.data "status ")
          (String.data (" " ++ ((canonicalReason status).getD "<unknown status code>"))) ?_
        simp [statusDisplay, String.data_append, List.append_assoc]
      · intro h; subst h; exact absurd (⟨by decide, by decide⟩ : 500 ≤ 500 ∧ 500 ≤ 599) hs
      · intro h; subst h; exact absurd (⟨by decide, by decide⟩ : 500 ≤ 503 ∧ 503 ≤ 599) hs
      · intro h; subst h; exact absurd (⟨by decide, by decide⟩ : 400 ≤ 401 ∧ 401 ≤ 499) hc
      · intro h; subst h; exact absurd (⟨by decide, by decide⟩ : 400 ≤ 400 ∧ 400 ≤ 499) hc

/-- Witness for C3 at the end-to-end scenario B response: HTTP 401 with an
empty body is classified Unauthorized, independently of the body. -/
theorem claim_c3_http_status_errors_witness :
    Client.handler 401 "" = Client.handler 401 "x" ∧
      ∃ r, Client.handler 401 "" = Except.error r ∧
        Report.mentions r (Nat.repr 401) = true ∧
        (401 = 500 → Report.mentions r "Internal Server Error" = true) ∧
        (401 = 503 → Report.mentions r "Service Unavailable" = true) ∧
        (401 = 401 → Report.mentions r "Unauthorized" = true) ∧
        (401 = 400 → Report.mentions r "Bad Request" = true) :=
  claim_c3_http_status_errors 401 (by decide) "" "x"

/-- C4 counterexample: the HTTP 200 body given here matches the error sniff
but is not valid JSON, and the surfaced report is the generic message with
no JSON field path attached, refuting the claim that every decode or shape
failure is surfaced with a specific field path. -/
theorem claim_c4_counterexample :
    Client.handler 200 "no good error" =
      Except.error ⟨Client.Error.UnexpectedResponseFormat, ["unexpected err format"], none⟩ ∧
    (⟨Client.Error.UnexpectedResponseFormat, ["unexpected err format"],
      none⟩ : Report).path = none :=
  ⟨rfl, rfl⟩

/-- C4 amended: a typed-decode failure in parse_json is surfaced with the
JSON path tracked by the path-tracking deserializer (the top-level path for
a syntax failure), while a body whose error sniff matched but which failed
the fault-envelope parse is surfaced as UnexpectedResponseFormat with the
generic message and no field path. -/
theorem claim_c4_decode_failure_paths {T : Type}
    (decT : List Seg → Json → Except DecErr T) (body : String) :
    (∀ j e, Json.parse body = some j → decodeJsonRpcResult decT j = Except.error e →
      Web3.parse_json (decodeJsonRpcResult decT) body =
        Except.error ⟨Client.Error.FailedToDeserialize, [e.msg], some e.path⟩) ∧
    (Json.parse body = none →
      Web3.parse_json (decodeJsonRpcResult decT) body =
        Except.error ⟨Client.Error.FailedToDeserialize, ["syntax error"], some []⟩) ∧
    (strContains body "error" = true → parseFaultEnv body = none →
      Client.handler 200 body =
        Except.error ⟨Client.Error.UnexpectedResponseFormat,
          ["unexpected err format"], none⟩) := by
  refine ⟨?_, ?_, ?_⟩
  · intro j e hp hd
    simp [Web3.parse_json, hp, hd]
  · intro hp
    simp [Web3.parse_json, hp]
  · intro hsub hfault
    simp [Client.handler, hsub, hfault]

/-- Witness for the C4 amended claim: a type mismatch at the result field is
surfaced with the path of that field, and a sniff-matched non-JSON body is
surfaced with the generic message and no path. -/
theorem claim_c4_decode_failure_paths_witness :
    Web3.parse_json (decodeJsonRpcResult decodeString)
        "\x7b\"jsonrpc\":\"2.0\",\"id\":\"401\",\"result\":7\x7d" =
      Except.error ⟨Client.Error.FailedToDeserialize, ["invalid type"],
        some [Seg.field "result"]⟩ ∧
    Client.handler 200 "bad error body" =
      Except.error ⟨Client.Error.UnexpectedResponseFormat,
        ["unexpected err format"], none⟩ :=
  ⟨(claim_c4_decode_failure_paths decodeString
      "\x7b\"jsonrpc\":\"2.0\",\"id\":\"401\",\"result\":7\x7d").1
      (Json.obj [("jsonrpc", Json.str "2.0"), ("id", Json.str "401"),
        ("result", Json.num 7)])
      ⟨[Seg.field "result"], "invalid type"⟩ rfl rfl,
    (claim_c4_decode_failure_paths decodeString "bad error body").2.2 rfl rfl⟩

/-- C5: after a matched sniff on an HTTP 200 body, a successful fault parse
surfaces the JsonRpcError kind and a failed fault parse surfaces the
UnexpectedResponseFormat kind, and the two kinds are never equal. -/
theorem claim_c5_error_kinds_distinct (body : String)
    (hsub : strContains body "error" = true) :
    (∀ env, parseFaultEnv body = some env →
      Client.handler 200 body =
        Except.error ⟨Client.Error.JsonRpcError env.error.message, [], none⟩) ∧
    (parseFaultEnv body = none →
      Client.handler 200 body =
        Except.error ⟨Client.Error.UnexpectedResponseFormat,
          ["unexpected err format"], none⟩) ∧
    (∀ msg, Client.Error.JsonRpcError msg ≠ Client.Error.UnexpectedResponseFormat) := by
  refine ⟨?_, ?_, ?_⟩
  · intro env h
    simp [Client.handler, hsub, h]
  · intro h
    simp [Client.handler, hsub, h]
  · intro msg h
    exact Client.Error.noConfusion h

/-- Witness for C5: a parsable fault body surfaces JsonRpcError, an
unparsable sniff-matched one surfaces UnexpectedResponseFormat. -/
theorem claim_c5_error_kinds_distinct_witness :
    Client.handler 200 "\x7b\"error\":\x7b\"code\":1,\"message\":\"boom\"\x7d\x7d" =
      Except.error ⟨Client.Error.JsonRpcError "boom", [], none⟩ ∧
    Client.handler 200 "zero error zero" =
      Except.error ⟨Client.Error.UnexpectedResponseFormat,
        ["unexpected err format"], none⟩ :=
  ⟨(claim_c5_error_kinds_distinct
      "\x7b\"error\":\x7b\"code\":1,\"message\":\"boom\"\x7d\x7d" rfl).1
      ⟨⟨1, "boom", none⟩⟩ rfl,
    (claim_c5_error_kinds_distinct "zero error zero" rfl).2.1 rfl⟩

/-- C6: an HTTP 200 body that is a well-formed success envelope whose result
value is the text error is misclassified: it is routed down the
fault-envelope parse path and surfaced as an error instead of Success. -/
theorem claim_c6_success_with_error_text_misclassified :
    Json.parse "\x7b\"id\":\"1\",\"jsonrpc\":\"2.0\",\"result\":\"error\"\x7d" =
      some (Json.obj [("id", Json.str "1"), ("jsonrpc", Json.str "2.0"),
        ("result", Json.str "error")]) ∧
    decodeJsonRpcResult decodeString
        (Json.obj [("id", Json.str "1"), ("jsonrpc", Json.str "2.0"),
          ("result", Json.str "error")]) =
      Except.ok ⟨"1", "2.0", "error"⟩ ∧
    strContains "\x7b\"id\":\"1\",\"jsonrpc\":\"2.0\",\"result\":\"error\"\x7d" "error" = true ∧
    Client.handler 200 "\x7b\"id\":\"1\",\"jsonrpc\":\"2.0\",\"result\":\"error\"\x7d" =
      Except.error ⟨Client.Error.UnexpectedResponseFormat,
        ["unexpected err format"], none⟩ :=
  ⟨rfl, rfl, rfl, rfl⟩

/-- C7: the eth_getBalance request payload, built with the latest block tag
(given or defaulted), is a JSON object holding exactly the four pairs
jsonrpc, method, params and id with the claimed values, its keys all
distinct. -/
theorem claim_c7_eth_get_balance_payload_exact
    (address : String) (tag : Option Tag)
    (htag : tag = none ∨ tag = some Tag.latest) :
    Web3.eth_get_balance_payload address tag =
      Json.obj [("jsonrpc", Json.str "2.0"), ("method", Json.str "eth_getBalance"),
        ("params", Json.arr [Json.str address, Json.str "latest"]),
        ("id", Json.str "311")] ∧
      (["jsonrpc", "method", "params", "id"] : List String).Nodup := by
  rcases htag with h | h
  · subst h
    exact ⟨rfl, by decide⟩
  · subst h
    exact ⟨rfl, by decide⟩

/-- Witness for C7 at the address of the round-trip property. -/
theorem claim_c7_eth_get_balance_payload_exact_witness :
    Web3.eth_get_balance_payload "0xabc" none =
      Json.obj [("jsonrpc", Json.str "2.0"), ("method", Json.str "eth_getBalance"),
        ("params", Json.arr [Json.str "0xabc", Json.str "latest"]),
        ("id", Json.str "311")] ∧
      (["jsonrpc", "method", "params", "id"] : List String).Nodup :=
  claim_c7_eth_get_balance_payload_exact "0xabc" none (Or.inl rfl)

/-- C8: every wrapper taking an optional block tag (eth_get_balance,
eth_get_storage_at, eth_get_transaction_count, eth_get_code) places the
literal string latest in the block-tag position of params when the tag is
unset. -/
theorem claim_c8_default_block_tag_latest (address data quantity : String) :
    Web3.eth_get_balance_payload address none =
      Json.obj [("jsonrpc", Json.str "2.0"), ("method", Json.str "eth_getBalance"),
        ("params", Json.arr [Json.str address, Json.str "latest"]),
        ("id", Json.str "311")] ∧
    Web3.eth_get_storage_at_payload data quantity none =
      Json.obj [("jsonrpc", Json.str "2.0"), ("method", Json.str "eth_getStorageAt"),
        ("params", Json.arr [Json.str data, Json.str quantity, Json.str "latest"]),
        ("id", Json.str "312")] ∧
    Web3.eth_get_transaction_count_payload address none =
      Json.obj [("jsonrpc", Json.str "2.0"),
        ("method", Json.str "eth_getTransactionCount"),
        ("params", Json.arr [Json.str address, Json.str "latest"]),
        ("id", Json.str "313")] ∧
    Web3.eth_get_code_payload address none =
      Json.obj [("jsonrpc", Json.str "2.0"), ("method", Json.str "eth_getCode"),
        ("params", Json.arr [Json.str address, Json.str "latest"]),
        ("id", Json.str "318")] :=
  ⟨rfl, rfl, rfl, rfl⟩

/-- C9: for every status code and every body text, the pipeline of handler
followed by parse_json resolves to a returned value: a typed envelope or an
inspectable error report. -/
theorem claim_c9_no_panic {T : Type} (dec : Json → Except DecErr T)
    (status : Nat) (body : String) :
    (∃ v, rpcCall dec status body = Except.ok v) ∨
      (∃ r, rpcCall dec status body = Except.error r) := by
  cases h : rpcCall dec status body with
  | ok v => exact Or.inl ⟨v, rfl⟩
  | error r => exact Or.inr ⟨r, rfl⟩

/-- C10: web3_client_version builds a request whose method is the literal
net_version with id 101, so its payload and the net_version payload agree on
every key other than id. -/
theorem claim_c10_web3_client_version_sends_net_version :
    Web3.web3_client_version_payload =
      Json.obj [("jsonrpc", Json.str "2.0"), ("method", Json.str "net_version"),
        ("params", Json.arr []), ("id", Json.str "101")] ∧
    Web3.net_version_payload =
      Json.obj [("jsonrpc", Json.str "2.0"), ("method", Json.str "net_version"),
        ("params", Json.arr []), ("id", Json.str "401")] ∧
    ("net_version" : String) ≠ "web3_clientVersion" ∧
    objGet "id" Web3.web3_client_version_payload = some (Json.str "101") ∧
    objGet "id" Web3.net_version_payload = some (Json.str "401") ∧
    (∀ k : String, k ≠ "id" →
      objGet k Web3.web3_client_version_payload =
        objGet k Web3.net_version_payload) := by
  refine ⟨rfl, rfl, by decide, rfl, rfl, ?_⟩
  intro k hk
  have hid : ¬("id" = k) := fun h => hk h.symm
  simp [objGet, Web3.web3_client_version_payload, Web3.net_version_payload, getKey, hid]

/-- Witness for C10 at the method key. -/
theorem claim_c10_web3_client_version_sends_net_version_witness :
    objGet "method" Web3.web3_client_version_payload =
      objGet "method" Web3.net_version_payload :=
  claim_c10_web3_client_version_sends_net_version.2.2.2.2.2 "method" (by decide)
